import Mathlib

/-!
Verification of the source-splitting script split_preview.py.

The script reads one monolithic Rust source file, locates five marker
substrings with str.index, slices the text into five blocks, composes six
output unit texts (an aggregator plus five sub-units, each with a literal
header preamble), writes the six files and finally unlinks the original.

The embedding below models Python text as List Char, Python exceptions as
an Except error monad, and the externally visible I/O of the script as an
explicit effect trace produced only when the whole computation succeeds
(which is faithful: in the source every fallible operation occurs before
the first file-system call).
-/

set_option maxRecDepth 4000

namespace SplitPreview

abbrev Chars := List Char

instance {ε α : Type} [DecidableEq ε] [DecidableEq α] : DecidableEq (Except ε α) := fun x y =>
  match x, y with
  | Except.ok a, Except.ok b =>
    if h : a = b then isTrue (by rw [h])
    else isFalse (by intro he; cases he; exact h rfl)
  | Except.error a, Except.error b =>
    if h : a = b then isTrue (by rw [h])
    else isFalse (by intro he; cases he; exact h rfl)
  | Except.ok _, Except.error _ => isFalse (by intro he; cases he)
  | Except.error _, Except.ok _ => isFalse (by intro he; cases he)

/-- Python whitespace characters as used by str.strip. -/
def isPyWs (c : Char) : Bool :=
  c = ' ' || ('\t' ≤ c && c ≤ '\x0d') || ('\x1c' ≤ c && c ≤ '\x1f') ||
  c = '\x85' || c = '\xa0' || c = '\u1680' || ('\u2000' ≤ c && c ≤ '\u200a') ||
  c = '\u2028' || c = '\u2029' || c = '\u202f' || c = '\u205f' || c = '\u3000'

/-- Python str.strip: drop leading and trailing whitespace. -/
def pyStrip (l : Chars) : Chars :=
  ((l.dropWhile isPyWs).reverse.dropWhile isPyWs).reverse

/-- Decides whether pat is a prefix of l (Python startswith). -/
def isPre : Chars → Chars → Bool
  | [], _ => true
  | _ :: _, [] => false
  | a :: as, b :: bs => a = b && isPre as bs

/-- Search loop of Python str.index / str.find: first offset at or after k
where pat matches. -/
def idxFrom (pat : Chars) : Chars → Nat → Option Nat
  | [], k => if isPre pat [] then some k else none
  | c :: t, k => if isPre pat (c :: t) then some k else idxFrom pat t (k + 1)

/-- Python hay.find(pat) (0-based first occurrence, none when absent). -/
def pyIndex (hay pat : Chars) : Option Nat :=
  idxFrom pat hay 0

/-- Python slice text[a:b] for non-negative bounds. -/
def pySlice (l : Chars) (a b : Nat) : Chars :=
  (l.take b).drop a

/-- Line-break characters recognized by Python str.splitlines. -/
def isLineBreak (c : Char) : Bool :=
  c = '\n' || c = '\r' || c = '\x0b' || c = '\x0c' ||
  c = '\x1c' || c = '\x1d' || c = '\x1e' || c = '\x85' ||
  c = '\u2028' || c = '\u2029'

/-- Worker for pySplitlines; acc holds the current line reversed. -/
def splitGo : Chars → Chars → List Chars
  | [], acc => if acc.isEmpty then [] else [acc.reverse]
  | '\r' :: '\n' :: t, acc => acc.reverse :: splitGo t []
  | c :: t, acc =>
    if isLineBreak c then acc.reverse :: splitGo t [] else splitGo t (c :: acc)

/-- Python str.splitlines (no trailing empty line for a trailing break). -/
def pySplitlines (l : Chars) : List Chars :=
  splitGo l []

/-- Python '\n'.join on a list of lines. -/
def joinNL : List Chars → Chars
  | [] => []
  | [l] => l
  | l :: l2 :: ls => l ++ '\n' :: joinNL (l2 :: ls)

/-- Errors the script can raise: ValueError from str.index, StopIteration
from an exhausted next(...), IndexError from the lines i plus one lookahead. -/
inductive Err where
  | valueError (msg : String)
  | stopIteration
  | indexError
  deriving DecidableEq, Repr

/-- The ValueError raised by Python str.index on a missing substring. -/
def errNotFound : Err := Err.valueError "substring not found"

/-- Marker key of line 7: struct FrameCache. -/
def kFrameCache : Chars := "struct FrameCache".data

/-- Marker key of lines 8 and 11: the renderer doc comment. -/
def kGenerates : Chars := "/// Generates composited preview frames".data

/-- Marker key of line 12: start of the plate_images impl fragment. -/
def kPlate : Chars := "impl PreviewRenderer \x7b\n    fn plate_images".data

/-- Marker key of line 15: struct PendingDecode. -/
def kPendingDecode : Chars := "struct PendingDecode".data

/-- Marker key of line 16: fn clamp_time. -/
def kClampTime : Chars := "fn clamp_time".data

/-- Line pattern of line 31: the constants line. -/
def kConst : Chars := "const DEFAULT_MAX_PREVIEW_WIDTH".data

/-- Line pattern of line 28: a derive attribute line. -/
def kDerive : Chars := "#[derive".data

/-- Substring pattern of line 28: PreviewStats in the following line. -/
def kStats : Chars := "PreviewStats".data

/-- The six top-level offsets resolved by the text.index calls of lines 7-19,
in evaluation order. -/
structure TopOffsets where
  frame_cache_start : Nat
  frame_cache_impl_end : Nat
  renderer_start : Nat
  plate_start : Nat
  layers_start : Nat
  utils_start : Nat
  deriving DecidableEq, Repr

/-- Lines 7-19 of the script: the six text.index calls in order, each
searching the whole document from offset 0 and raising ValueError when the
key is absent. -/
def resolveTop (text : Chars) : Except Err TopOffsets :=
  match pyIndex text kFrameCache with
  | none => Except.error errNotFound
  | some fcs =>
    match pyIndex text kGenerates with
    | none => Except.error errNotFound
    | some fce =>
      match pyIndex text kGenerates with
      | none => Except.error errNotFound
      | some rs =>
        match pyIndex text kPlate with
        | none => Except.error errNotFound
        | some ps =>
          match pyIndex text kPendingDecode with
          | none => Except.error errNotFound
          | some ls =>
            match pyIndex text kClampTime with
            | none => Except.error errNotFound
            | some us => Except.ok ⟨fcs, fce, rs, ps, ls, us⟩

/-- Line 9: cache_block = text from frame_cache_start to frame_cache_impl_end. -/
def cache_block (text : Chars) (t : TopOffsets) : Chars :=
  pySlice text t.frame_cache_start t.frame_cache_impl_end

/-- Line 13: renderer_block = text from renderer_start to plate_start. -/
def renderer_block (text : Chars) (t : TopOffsets) : Chars :=
  pySlice text t.renderer_start t.plate_start

/-- Line 17: layers_block = text from layers_start to utils_start. -/
def layers_block (text : Chars) (t : TopOffsets) : Chars :=
  pySlice text t.layers_start t.utils_start

/-- Line 19: utils_block = text from utils_start to the end. -/
def utils_block (text : Chars) (t : TopOffsets) : Chars :=
  text.drop t.utils_start

/-- Line 22: types_block = text from the start to frame_cache_start. -/
def types_block (text : Chars) (t : TopOffsets) : Chars :=
  text.take t.frame_cache_start

/-- Line 28 of the script: first line index i whose stripped line starts with
a derive attribute and whose successor line contains PreviewStats; raises
IndexError when the derive line is the last line, StopIteration when no line
matches. -/
def findStatsGo : List Chars → Nat → Except Err Nat
  | [], _ => Except.error Err.stopIteration
  | l :: t, k =>
    if isPre kDerive (pyStrip l) then
      match t with
      | [] => Except.error Err.indexError
      | nxt :: _ =>
        if (pyIndex nxt kStats).isSome then Except.ok k
        else findStatsGo t (k + 1)
    else findStatsGo t (k + 1)

/-- Entry point of the line-28 search at index 0. -/
def findStats (lines : List Chars) : Except Err Nat :=
  findStatsGo lines 0

/-- Line 31 of the script: first line index starting with the constants
pattern; StopIteration when absent. -/
def findConstGo : List Chars → Nat → Except Err Nat
  | [], _ => Except.error Err.stopIteration
  | l :: t, k =>
    if isPre kConst l then Except.ok k else findConstGo t (k + 1)

/-- Entry point of the line-31 search at index 0. -/
def findConstIdx (lines : List Chars) : Except Err Nat :=
  findConstGo lines 0

/-- Lines 34-38 of the script: the loop over lines before const_start appends
use-lines to uses and never touches rest, which stays empty. -/
def usesAndRest (lines : List Chars) (const_start : Nat) :
    List Chars × List Chars :=
  ((lines.take const_start).filter (fun l => isPre "use ".data l), [])

/-- Lines 40-49 given the two resolved line indices: const_block and
type_block are stripped joins, and types_rs appends a newline to a nonempty
const_block before concatenating. -/
def typesAssemble (lines : List Chars) (const_start preview_stats_idx : Nat) :
    Chars :=
  let constB := pyStrip (joinNL ((lines.take preview_stats_idx).drop const_start))
  let typeB := pyStrip (joinNL (lines.drop preview_stats_idx))
  (if constB = [] then [] else constB ++ ['\n']) ++ typeB ++ ['\n']

/-- Lines 25-49 of the script at the level of the types_block line list:
resolve preview_stats_idx (line 28) then const_start (line 31), then build
types_rs. -/
def typesFromLines (lines : List Chars) : Except Err Chars :=
  match findStats lines with
  | Except.error e => Except.error e
  | Except.ok psi =>
    match findConstIdx lines with
    | Except.error e => Except.error e
    | Except.ok cs => Except.ok (typesAssemble lines cs psi)

/-- The aggregator literal of line 45 of the script. -/
def mod_rs : Chars :=
  ("//! Preview rendering system\n//!\n//! Generates composited preview frames for the current timeline time.\n\nmod renderer;\nmod cache;\nmod layers;\nmod types;\nmod utils;\n\npub use renderer::PreviewRenderer;\npub use cache::\x7bFrameCache, CachedFrame\x7d;\npub use layers::\x7bPreviewLayer, PreviewLayerStack, PreviewLayerGpu\x7d;\npub use types::*;\npub use utils::*;\n").data

/-- Header preamble literal of cache.rs (lines 52-55). -/
def cacheHeader : Chars :=
  ("use std::collections::\x7bHashMap, HashSet, VecDeque\x7d;\nuse std::path::\x7bPath, PathBuf\x7d;\n\nuse image::RgbaImage;\n\nuse super::\x7bFrameKey, CachedFrame\x7d;\n\n").data

/-- Header preamble literal of renderer.rs (lines 61-77). -/
def rendererHeader : Chars :=
  ("use std::path::\x7bPath, PathBuf\x7d;\nuse std::sync::\x7bArc, Mutex\x7d;\nuse std::time::Instant;\n\nuse image::\x7bRgba, RgbaImage\x7d;\n\nuse crate::core::preview_store;\nuse crate::core::video_decode::\x7bDecodeMode, VideoDecodeWorker\x7d;\nuse crate::state::\x7bAsset, ClipTransform, Project, TrackType\x7d;\n\nuse super::\x7b\n    cache::FrameCache,\n    layers::\x7bPreviewLayer, PreviewLayerGpu, PreviewLayerPlacement, PreviewLayerStack\x7d,\n    types::\x7bPreviewDecodeMode, PreviewFrameInfo, PreviewStats, RenderOutput\x7d,\n    utils::\x7b\n        clamp_time, elapsed_ms, frame_index_to_time, image_size_bytes, scale_image_to_fit,\n        time_to_frame_index, track_lane_id,\n    \x7d,\n    DecodedFrame, FrameKey, PendingDecode, PlateCache,\n\x7d;\n\n").data

/-- Header preamble literal of layers.rs (lines 83-90). -/
def layersHeader : Chars :=
  ("use std::borrow::Cow;\nuse std::path::\x7bPath, PathBuf\x7d;\nuse std::sync::Arc;\n\nuse image::\x7bRgba, RgbaImage\x7d;\nuse image::imageops::\x7boverlay, resize, FilterType\x7d;\nuse imageproc::geometric_transformations::\x7brotate_about_center, Interpolation\x7d;\n\nuse crate::state::\x7bAsset, AssetKind, ClipTransform\x7d;\n\nuse super::types::\x7bPreviewLayerPlacement\x7d;\n\n").data

/-- Header preamble literal of utils.rs (lines 96-100). -/
def utilsHeader : Chars :=
  ("use std::path::Path;\nuse std::time::Instant;\n\nuse image::\x7bRgba, RgbaImage\x7d;\nuse image::imageops::\x7bresize, FilterType\x7d;\n\nuse crate::state::\x7bAsset, AssetKind\x7d;\n\n").data

/-- Lines 51-58: cache.rs = header plus stripped cache_block plus newline. -/
def cache_rsOf (text : Chars) (t : TopOffsets) : Chars :=
  cacheHeader ++ pyStrip (cache_block text t) ++ ['\n']

/-- Lines 60-80: renderer.rs = header plus stripped renderer_block plus newline. -/
def renderer_rsOf (text : Chars) (t : TopOffsets) : Chars :=
  rendererHeader ++ pyStrip (renderer_block text t) ++ ['\n']

/-- Lines 82-93: layers.rs = header plus stripped layers_block plus newline. -/
def layers_rsOf (text : Chars) (t : TopOffsets) : Chars :=
  layersHeader ++ pyStrip (layers_block text t) ++ ['\n']

/-- Lines 95-103: utils.rs = header plus stripped utils_block plus newline. -/
def utils_rsOf (text : Chars) (t : TopOffsets) : Chars :=
  utilsHeader ++ pyStrip (utils_block text t) ++ ['\n']

/-- Externally visible file-system actions of lines 43 and 105-112. -/
inductive Effect where
  | mkdir (path : String)
  | write (path : String) (content : Chars)
  | unlink (path : String) (missing_ok : Bool)
  deriving DecidableEq, Repr

/-- Output directory created at line 43. -/
def previewDir : String := "src/core/preview"

/-- Path of the aggregator file. -/
def modPath : String := "src/core/preview/mod.rs"

/-- Path of the types file. -/
def typesPath : String := "src/core/preview/types.rs"

/-- Path of the cache file. -/
def cachePath : String := "src/core/preview/cache.rs"

/-- Path of the renderer file. -/
def rendererPath : String := "src/core/preview/renderer.rs"

/-- Path of the layers file. -/
def layersPath : String := "src/core/preview/layers.rs"

/-- Path of the utils file. -/
def utilsPath : String := "src/core/preview/utils.rs"

/-- Path of the original monolithic file, unlinked at line 112. -/
def origPath : String := "src/core/preview.rs"

/-- The whole script on a loaded document: resolve the six offsets
(lines 7-19), build the types unit (lines 25-49, which can still raise), and
only then perform the effects of lines 43 and 105-112 in program order.
Every fallible operation of the source occurs before its first file-system
call, so an error yields an empty effect trace. -/
def script (text : Chars) : Except Err (List Effect) :=
  match resolveTop text with
  | Except.error e => Except.error e
  | Except.ok t =>
    match typesFromLines (pySplitlines (types_block text t)) with
    | Except.error e => Except.error e
    | Except.ok types_rs =>
      Except.ok
        [Effect.mkdir previewDir,
         Effect.write modPath mod_rs,
         Effect.write typesPath types_rs,
         Effect.write cachePath (cache_rsOf text t),
         Effect.write rendererPath (renderer_rsOf text t),
         Effect.write layersPath (layers_rsOf text t),
         Effect.write utilsPath (utils_rsOf text t),
         Effect.unlink origPath true]

/-- Extracts the resolved offsets of a document, defaulting to zeros when
resolution fails; used to state concrete facts without copying offsets. -/
def tOf (text : Chars) : TopOffsets :=
  match resolveTop text with
  | Except.ok t => t
  | Except.error _ => ⟨0, 0, 0, 0, 0, 0⟩

/-- Test document on which every search of the script succeeds; the span
between the plate marker and the PendingDecode marker is dropped. -/
def docGood : Chars :=
  ("const DEFAULT_MAX_PREVIEW_WIDTH: u32 = 1;\n#[derive(Debug)]\nstruct PreviewStats;\nstruct FrameCache\n/// Generates composited preview frames\nimpl PreviewRenderer \x7b\n    fn plate_images\nstruct PendingDecode\nfn clamp_time x\n").data

/-- Test document whose markers occur out of declared order: the
PendingDecode marker precedes the FrameCache marker, yet every search
succeeds. -/
def docOOO : Chars :=
  ("const DEFAULT_MAX_PREVIEW_WIDTH: u32 = 1;\n#[derive(Debug)]\nstruct PreviewStats;\nstruct PendingDecode\nstruct FrameCache\n/// Generates composited preview frames\nimpl PreviewRenderer \x7b\n    fn plate_images\nfn clamp_time\n").data

/-- Test document whose renderer doc-comment marker occurs before the
constants line, so the renderer block captures the leading text including
the import line use foo;. -/
def docEarly : Chars :=
  ("/// Generates composited preview frames EARLY\nuse foo;\nconst DEFAULT_MAX_PREVIEW_WIDTH: u32 = 1;\n#[derive(Debug)]\nstruct PreviewStats;\nstruct FrameCache\nimpl PreviewRenderer \x7b\n    fn plate_images\nstruct PendingDecode\nfn clamp_time\n").data

/-- Test document whose cache block carries trailing spaces on its only
line, distinguishing full whitespace stripping from blank-line trimming. -/
def docWs : Chars :=
  ("const DEFAULT_MAX_PREVIEW_WIDTH: u32 = 1;\n#[derive(Debug)]\nstruct PreviewStats;\nstruct FrameCacheZZZ   /// Generates composited preview frames\nimpl PreviewRenderer \x7b\n    fn plate_images\nstruct PendingDecode\nfn clamp_time\n").data

/-- Test document missing the very first marker key struct FrameCache. -/
def docMissFC : Chars := "hello world\n".data

/-- Test document containing struct FrameCache but missing the renderer
doc-comment marker. -/
def docMissGen : Chars := "struct FrameCache\n".data

/-- The import line occurring only in the leading region of docEarly. -/
def kUseFoo : Chars := "use foo;".data

/-- Sample leading lines matching neither the const pattern nor the derive
pattern, used to instantiate the prefix-independence statement. -/
def preLines : List Chars :=
  [("// preview module front matter").data, ("use std::fs;").data]

/-- Concatenation of the five produced blocks in range order (the order
named by the coverage property). -/
def concatBlocksOf (text : Chars) (t : TopOffsets) : Chars :=
  types_block text t ++ cache_block text t ++ renderer_block text t ++
  layers_block text t ++ utils_block text t

/-- The six resolved boundary offsets in marker declaration order. -/
def boundarySeq (t : TopOffsets) : List Nat :=
  [t.frame_cache_start, t.frame_cache_impl_end, t.renderer_start,
   t.plate_start, t.layers_start, t.utils_start]

/-- Decides whether a list of naturals is non-decreasing. -/
def nondecreasing : List Nat → Bool
  | [] => true
  | [_] => true
  | a :: b :: t => Nat.ble a b && nondecreasing (b :: t)

/-- The pattern pat matches the document at offset n. -/
def occursAtB (text pat : Chars) (n : Nat) : Bool :=
  isPre pat (text.drop n)

/-- Offset n is the first occurrence of pat in the whole document. -/
def firstOccurrence (text pat : Chars) (n : Nat) : Prop :=
  occursAtB text pat n = true ∧ ∀ m, m < n → occursAtB text pat m = false

/-- Worker of endsOneNL on the reversed text. -/
def oneNLRev : Chars → Bool
  | [] => false
  | c :: rest =>
    if c = '\n' then
      match rest with
      | [] => true
      | d :: _ => if d = '\n' then false else true
    else false

/-- Decides whether a text ends with exactly one line terminator. -/
def endsOneNL (l : Chars) : Bool :=
  oneNLRev l.reverse

/-- Worker of endsOneBlank on the reversed text. -/
def oneBlankRev : Chars → Bool
  | c :: d :: rest =>
    if c = '\n' then
      if d = '\n' then
        match rest with
        | [] => true
        | e :: _ => if e = '\n' then false else true
      else false
    else false
  | _ => false

/-- Decides whether a text ends with exactly one blank line, that is one
newline closing the last header line followed by one further newline and no
more. -/
def endsOneBlank (l : Chars) : Bool :=
  oneBlankRev l.reverse

/-- Worker splitting a text into chunks, each line keeping its terminator. -/
def chunkGo : Chars → Chars → List Chars
  | [], acc => if acc.isEmpty then [] else [acc.reverse]
  | '\n' :: t, acc => (acc.reverse ++ ['\n']) :: chunkGo t []
  | c :: t, acc => chunkGo t (c :: acc)

/-- Lossless decomposition of a text into newline-terminated chunks. -/
def lineChunks (l : Chars) : List Chars :=
  chunkGo l []

/-- A chunk consisting of whitespace only, that is a blank line. -/
def isBlankChunk (c : Chars) : Bool :=
  c.all isPyWs

/-- Drops trailing blank chunks. -/
def dropTrailingBlanks (ls : List Chars) : List Chars :=
  (ls.reverse.dropWhile isBlankChunk).reverse

/-- Modelled from the spec: the trim step the specification declares,
stripping leading and trailing blank lines of a block and nothing else
(section 4.2: strip leading/trailing blank lines). Stated here only to be
compared against the pyStrip the code actually applies. -/
def specBlankLineTrim (l : Chars) : Chars :=
  (dropTrailingBlanks ((lineChunks l).dropWhile isBlankChunk)).flatten

/-- The write paths of an effect trace in order. -/
def writePaths (tr : List Effect) : List String :=
  tr.filterMap (fun e =>
    match e with
    | Effect.write p _ => some p
    | _ => none)

/-- The write paths of a whole run. -/
def writePathsE (r : Except Err (List Effect)) : Except Err (List String) :=
  match r with
  | Except.ok tr => Except.ok (writePaths tr)
  | Except.error e => Except.error e

/-- Content written to a path by a trace, if any. -/
def writtenContent (tr : List Effect) (p : String) : Option Chars :=
  (tr.filterMap (fun e =>
    match e with
    | Effect.write q c => if q = p then some c else none
    | _ => none)).head?

/-- Content the script writes to a path on a document, if the run succeeds. -/
def unitOut (text : Chars) (p : String) : Option Chars :=
  match script text with
  | Except.ok tr => writtenContent tr p
  | Except.error _ => none

/-- Substring test on an optional text. -/
def optContains (o : Option Chars) (pat : Chars) : Bool :=
  match o with
  | some c => (pyIndex c pat).isSome
  | none => false

/-- Strict comparison of two optional offsets, false unless both exist. -/
def ltOpt : Option Nat → Option Nat → Bool
  | some a, some b => Nat.blt a b
  | _, _ => false

/-- Chained strict comparison of optional offsets. -/
def chainLtOpt : List (Option Nat) → Bool
  | [] => true
  | [a] => a.isSome
  | a :: b :: t => ltOpt a b && chainLtOpt (b :: t)

/-- The pattern pat occurs in doc exactly once, before the first occurrence
of ref. -/
def soleEarlyOccurrence (doc pat ref : Chars) : Bool :=
  match pyIndex doc pat, pyIndex doc ref with
  | some u, some c => Nat.blt u c && (pyIndex (doc.drop (u + 1)) pat).isNone
  | _, _ => false

/-- The five sub-unit names in the order the aggregator declares them. -/
def fiveUnits : List String :=
  ["renderer", "cache", "layers", "types", "utils"]

/-- The mod declaration statement for a sub-unit name. -/
def modDeclKey (n : String) : Chars :=
  ("mod " ++ n ++ ";").data

/-- The start of the pub use re-export statement for a sub-unit name. -/
def pubUseKey (n : String) : Chars :=
  ("pub use " ++ n ++ "::").data

/-- The aggregator contains the declaration of n before its re-export. -/
def declBeforeReexport (n : String) : Bool :=
  ltOpt (pyIndex mod_rs (modDeclKey n)) (pyIndex mod_rs (pubUseKey n))

/-- Tiny file-system model: the list of existing paths. A write or mkdir
makes the path exist; unlink removes it, and with missing_ok set it
succeeds as a no-op on an absent path, else it fails. -/
def applyEffect (fs : List String) : Effect → Option (List String)
  | Effect.mkdir p => some (if fs.contains p then fs else p :: fs)
  | Effect.write p _ => some (if fs.contains p then fs else p :: fs)
  | Effect.unlink p mo =>
    if fs.contains p then some (fs.erase p)
    else if mo then some fs else none

/-- One of the five top-level marker keys is absent from the document. -/
def topKeyAbsent (text : Chars) : Bool :=
  (pyIndex text kFrameCache).isNone || (pyIndex text kGenerates).isNone ||
  (pyIndex text kPlate).isNone || (pyIndex text kPendingDecode).isNone ||
  (pyIndex text kClampTime).isNone

/-- The line-level searches of lines 28 and 31 fail on the given lines. -/
def typesSearchFails (lines : List Chars) : Bool :=
  !(findStats lines).isOk || !(findConstIdx lines).isOk

/-- Some configured pattern is absent: either a top-level marker key, or the
PreviewStats / const line patterns inside the types block. -/
def anyMarkerAbsent (text : Chars) : Bool :=
  match resolveTop text with
  | Except.error _ => true
  | Except.ok t => typesSearchFails (pySplitlines (types_block text t))

/-- Modelled from the spec: a declarative unit specification of section 3,
a unit name together with the explicitly declared list of symbols the unit
re-exports; absent from src, where the aggregator is a fixed literal. -/
structure UnitSpec where
  name : String
  reexports : List String
  deriving DecidableEq, Repr

/-- Modelled from the spec: the error taxonomy of section 7; only
DuplicateReexport is exercised here. None of these exists in src. -/
inductive SpecError where
  | markerNotFound (name : String)
  | coverageViolation (lo hi : Nat)
  | duplicateReexport (symbol : String)
  deriving DecidableEq, Repr

/-- First element of the second list already seen or repeated, if any. -/
def findDupGo : List String → List String → Option String
  | _, [] => none
  | seen, x :: xs => if x ∈ seen then some x else findDupGo (x :: seen) xs

/-- First duplicated element of a list, if any. -/
def findDup (l : List String) : Option String :=
  findDupGo [] l

/-- Comma-separated join. -/
def joinComma : List String → String
  | [] => ""
  | [s] => s
  | s :: s2 :: t => s ++ ", " ++ joinComma (s2 :: t)

/-- Modelled from the spec: the ManifestGenerator of section 4.4. Emits per
unit a declaration statement followed by a re-export statement, in declared
order, and fails with DuplicateReexport before building any text when two
units re-export the same symbol. This designed validation is absent from
src, whose aggregator is the fixed literal mod_rs. -/
def generate (specs : List UnitSpec) : Except SpecError String :=
  match findDup ((specs.map (fun u => u.reexports)).flatten) with
  | some s => Except.error (SpecError.duplicateReexport s)
  | none =>
    Except.ok
      (String.join (specs.map (fun u => "mod " ++ u.name ++ ";\n")) ++ "\n" ++
       String.join (specs.map (fun u =>
         "pub use " ++ u.name ++ "::\x7b" ++ joinComma u.reexports ++ "\x7d;\n")))

/-! Lemmas about the text primitives. -/

theorem idxFrom_some_spec (pat : Chars) :
    ∀ (hay : Chars) (k n : Nat), idxFrom pat hay k = some n →
      k ≤ n ∧ isPre pat (hay.drop (n - k)) = true ∧
        ∀ m, m < n - k → isPre pat (hay.drop m) = false := by
  intro hay
  induction hay with
  | nil =>
    intro k n h
    simp only [idxFrom] at h
    split at h
    · cases h
      refine ⟨Nat.le_refl _, ?_, ?_⟩
      · simpa using (by assumption : isPre pat [] = true)
      · intro m hm
        exact absurd hm (by omega)
    · cases h
  | cons c t ih =>
    intro k n h
    simp only [idxFrom] at h
    split at h
    · cases h
      refine ⟨Nat.le_refl _, ?_, ?_⟩
      · simpa using (by assumption : isPre pat (c :: t) = true)
      · intro m hm
        exact absurd hm (by omega)
    · rename_i hp
      obtain ⟨h1, h2, h3⟩ := ih (k + 1) n h
      have hkn : k < n := by omega
      refine ⟨by omega, ?_, ?_⟩
      · have hnk : n - k = (n - (k + 1)) + 1 := by omega
        rw [hnk]
        simpa using h2
      · intro m hm
        cases m with
        | zero =>
          simp only [List.drop_zero]
          simp at hp
          exact hp
        | succ j =>
          have hj : j < n - (k + 1) := by omega
          simpa using h3 j hj

theorem pyIndex_first (text pat : Chars) (n : Nat)
    (h : pyIndex text pat = some n) : firstOccurrence text pat n := by
  obtain ⟨-, h2, h3⟩ := idxFrom_some_spec pat text 0 n h
  constructor
  · simpa [occursAtB] using h2
  · intro m hm
    have := h3 m (by omega)
    simpa [occursAtB] using this

theorem take_concat_take {α : Type} (l : List α) (a b : Nat) (hab : a ≤ b) :
    l.take a ++ (l.take b).drop a = l.take b := by
  conv_rhs => rw [← List.take_append_drop a (l.take b)]
  rw [List.take_take, Nat.min_eq_left hab]

theorem take_drop_concat_drop {α : Type} (l : List α) (a b : Nat)
    (hab : a ≤ b) : (l.take b).drop a ++ l.drop b = l.drop a := by
  rcases Nat.le_total a l.length with hle | hgt
  · conv_rhs => rw [← List.take_append_drop b l]
    rw [List.drop_append_eq_append_drop]
    have hz : a - (l.take b).length = 0 := by
      rw [List.length_take]
      omega
    rw [hz, List.drop_zero]
  · have h1 : l.drop a = [] := List.drop_eq_nil_of_le (by omega)
    have h2 : l.drop b = [] := List.drop_eq_nil_of_le (by omega)
    have h3 : (l.take b).drop a = [] :=
      List.drop_eq_nil_of_le (by rw [List.length_take]; omega)
    rw [h1, h2, h3]
    rfl

theorem dropWhile_head_false {α : Type} (p : α → Bool) :
    ∀ (l : List α) (c : α) (cs : List α),
      l.dropWhile p = c :: cs → p c = false := by
  intro l
  induction l with
  | nil => intro c cs h; simp [List.dropWhile] at h
  | cons a t ih =>
    intro c cs h
    rw [List.dropWhile_cons] at h
    split at h
    · exact ih c cs h
    · rename_i hp
      cases h
      simp at hp
      exact hp

theorem pyStrip_reverse_head (b : Chars) (h : pyStrip b ≠ []) :
    ∃ c cs, (pyStrip b).reverse = c :: cs ∧ isPyWs c = false := by
  cases hzz : (b.dropWhile isPyWs).reverse.dropWhile isPyWs with
  | nil =>
    exfalso
    apply h
    unfold pyStrip
    rw [hzz]
    rfl
  | cons c cs =>
    refine ⟨c, cs, ?_, dropWhile_head_false isPyWs _ c cs hzz⟩
    unfold pyStrip
    rw [hzz, List.reverse_reverse]

theorem endsOneNL_of_strip (a b : Chars) (h : pyStrip b ≠ []) :
    endsOneNL (a ++ pyStrip b ++ ['\n']) = true := by
  obtain ⟨c, cs, hrev, hws⟩ := pyStrip_reverse_head b h
  have hc : ¬ c = '\n' := by
    intro hcn
    have hnl : isPyWs '\n' = true := by decide
    rw [hcn, hnl] at hws
    cases hws
  unfold endsOneNL
  have hshape : (a ++ pyStrip b ++ ['\n']).reverse =
      '\n' :: c :: (cs ++ a.reverse) := by
    rw [List.reverse_append, List.reverse_append, hrev]
    simp
  rw [hshape]
  simp [oneNLRev, hc]

theorem findStatsGo_succ : ∀ (ls : List Chars) (k : Nat),
    findStatsGo ls (k + 1) = (findStatsGo ls k).map (fun n => n + 1) := by
  intro ls
  induction ls with
  | nil => intro k; rfl
  | cons l t ih =>
    intro k
    by_cases hd : isPre kDerive (pyStrip l) = true
    · cases t with
      | nil => simp [findStatsGo, hd, Except.map]
      | cons nxt rest =>
        by_cases hs : (pyIndex nxt kStats).isSome = true
        · simp [findStatsGo, hd, hs, Except.map]
        · simp only [findStatsGo, hd, if_true, hs, if_false]
          simp at hs
          simp [hs]
          exact ih (k + 1)
    · simp only [findStatsGo]
      simp at hd
      simp [hd]
      exact ih (k + 1)

theorem findConstGo_succ : ∀ (ls : List Chars) (k : Nat),
    findConstGo ls (k + 1) = (findConstGo ls k).map (fun n => n + 1) := by
  intro ls
  induction ls with
  | nil => intro k; rfl
  | cons l t ih =>
    intro k
    by_cases hc : isPre kConst l = true
    · simp [findConstGo, hc, Except.map]
    · simp only [findConstGo]
      simp at hc
      simp [hc]
      exact ih (k + 1)

theorem typesFromLines_cons (l : Chars) (ls : List Chars)
    (hd : isPre kDerive (pyStrip l) = false) (hc : isPre kConst l = false) :
    typesFromLines (l :: ls) = typesFromLines ls := by
  unfold typesFromLines findStats findConstIdx
  have h1 : findStatsGo (l :: ls) 0 = (findStatsGo ls 0).map (fun n => n + 1) := by
    simp only [findStatsGo, hd]
    simp
    exact findStatsGo_succ ls 0
  have h2 : findConstGo (l :: ls) 0 = (findConstGo ls 0).map (fun n => n + 1) := by
    simp only [findConstGo, hc]
    simp
    exact findConstGo_succ ls 0
  rw [h1, h2]
  cases hps : findStatsGo ls 0 with
  | error e => simp [Except.map]
  | ok psi =>
    cases hcs : findConstGo ls 0 with
    | error e => simp [Except.map]
    | ok cs =>
      simp [Except.map]
      unfold typesAssemble
      rw [List.take_succ_cons, List.drop_succ_cons, List.drop_succ_cons]

theorem findDupGo_none : ∀ (l seen : List String), findDupGo seen l = none →
    l.Nodup ∧ ∀ x ∈ l, x ∉ seen := by
  intro l
  induction l with
  | nil => intro seen _; exact ⟨List.nodup_nil, by simp⟩
  | cons x xs ih =>
    intro seen h
    simp only [findDupGo] at h
    split at h
    · cases h
    · rename_i hmem
      obtain ⟨hnd, hni⟩ := ih (x :: seen) h
      constructor
      · rw [List.nodup_cons]
        exact ⟨fun hx => (hni x hx) (by simp), hnd⟩
      · intro y hy
        rcases List.mem_cons.mp hy with hxy | hxs
        · rw [hxy]; exact hmem
        · exact fun hs => (hni y hxs) (by simp [hs])

theorem findDup_isSome_of_not_nodup (l : List String) (h : ¬ l.Nodup) :
    (findDup l).isSome = true := by
  cases hfd : findDup l with
  | none => exact absurd (findDupGo_none l [] hfd).1 h
  | some s => rfl

theorem resolveTop_fields (text : Chars) (t : TopOffsets)
    (h : resolveTop text = Except.ok t) :
    pyIndex text kFrameCache = some t.frame_cache_start ∧
    pyIndex text kGenerates = some t.frame_cache_impl_end ∧
    t.renderer_start = t.frame_cache_impl_end ∧
    pyIndex text kPlate = some t.plate_start ∧
    pyIndex text kPendingDecode = some t.layers_start ∧
    pyIndex text kClampTime = some t.utils_start := by
  unfold resolveTop at h
  cases h1 : pyIndex text kFrameCache with
  | none => rw [h1] at h; simp at h
  | some fcs =>
    rw [h1] at h
    cases h2 : pyIndex text kGenerates with
    | none => rw [h2] at h; simp at h
    | some fce =>
      rw [h2] at h
      cases h4 : pyIndex text kPlate with
      | none => rw [h4] at h; simp at h
      | some ps =>
        rw [h4] at h
        cases h5 : pyIndex text kPendingDecode with
        | none => rw [h5] at h; simp at h
        | some ls =>
          rw [h5] at h
          cases h6 : pyIndex text kClampTime with
          | none => rw [h6] at h; simp at h
          | some us =>
            rw [h6] at h
            have h' : (Except.ok (⟨fcs, fce, fce, ps, ls, us⟩ : TopOffsets) :
                Except Err TopOffsets) = Except.ok t := h
            cases h'
            exact ⟨rfl, rfl, rfl, rfl, rfl, rfl⟩

theorem typesFails_error (ls : List Chars) (h : typesSearchFails ls = true) :
    ∃ e, typesFromLines ls = Except.error e := by
  unfold typesSearchFails at h
  unfold typesFromLines
  cases hs : findStats ls with
  | error e => exact ⟨e, rfl⟩
  | ok psi =>
    cases hc : findConstIdx ls with
    | error e => exact ⟨e, rfl⟩
    | ok cs =>
      rw [hs, hc] at h
      simp [Except.isOk, Except.toBool] at h

theorem script_error_of_resolve (text : Chars) (e : Err)
    (hr : resolveTop text = Except.error e) : script text = Except.error e := by
  simp only [script, hr]

theorem script_error_of_types (text : Chars) (t : TopOffsets) (e : Err)
    (hr : resolveTop text = Except.ok t)
    (ht : typesFromLines (pySplitlines (types_block text t)) = Except.error e) :
    script text = Except.error e := by
  simp only [script, hr, ht]

theorem script_ok_trace (text : Chars) (t : TopOffsets) (ty : Chars)
    (hr : resolveTop text = Except.ok t)
    (ht : typesFromLines (pySplitlines (types_block text t)) = Except.ok ty) :
    script text = Except.ok
      [Effect.mkdir previewDir, Effect.write modPath mod_rs,
       Effect.write typesPath ty, Effect.write cachePath (cache_rsOf text t),
       Effect.write rendererPath (renderer_rsOf text t),
       Effect.write layersPath (layers_rsOf text t),
       Effect.write utilsPath (utils_rsOf text t),
       Effect.unlink origPath true] := by
  simp only [script, hr, ht]

theorem resolveTop_errNotFound (text : Chars) (h : topKeyAbsent text = true) :
    resolveTop text = Except.error errNotFound := by
  unfold topKeyAbsent at h
  unfold resolveTop
  cases h1 : pyIndex text kFrameCache with
  | none => rfl
  | some fcs =>
    cases h2 : pyIndex text kGenerates with
    | none => rfl
    | some fce =>
      cases h4 : pyIndex text kPlate with
      | none => rfl
      | some ps =>
        cases h5 : pyIndex text kPendingDecode with
        | none => rfl
        | some ls =>
          cases h6 : pyIndex text kClampTime with
          | none => rfl
          | some us =>
            rw [h1, h2, h4, h5, h6] at h
            simp at h

/-! Claim theorems. -/

/-- C1: when any configured marker key, or the PreviewStats / const line
pattern, is absent from the document, the whole run terminates with an error
and produces zero effects: nothing is written and the original document is
not deleted, all boundary resolution having been attempted before the first
externally visible write. -/
theorem c1_missing_marker_atomicity (text : Chars)
    (h : anyMarkerAbsent text = true) :
    (∃ e, script text = Except.error e) ∧ ∀ tr, script text ≠ Except.ok tr := by
  unfold anyMarkerAbsent at h
  have herr : ∃ e, script text = Except.error e := by
    cases hr : resolveTop text with
    | error e => exact ⟨e, script_error_of_resolve text e hr⟩
    | ok t =>
      rw [hr] at h
      have h' : typesSearchFails (pySplitlines (types_block text t)) = true := h
      obtain ⟨e, het⟩ := typesFails_error _ h'
      exact ⟨e, script_error_of_types text t e hr het⟩
  obtain ⟨e, he⟩ := herr
  refine ⟨⟨e, he⟩, fun tr hc => ?_⟩
  rw [he] at hc
  cases hc

/-- Witness for C1 at a document missing the struct FrameCache marker. -/
theorem c1_missing_marker_atomicity_witness :
    anyMarkerAbsent docMissFC = true ∧
    (∃ e, script docMissFC = Except.error e) ∧
    ∀ tr, script docMissFC ≠ Except.ok tr := by
  have h : anyMarkerAbsent docMissFC = true := by decide
  exact ⟨h, c1_missing_marker_atomicity docMissFC h⟩

/-- C4 counterexample: two documents missing different markers fail with the
same generic ValueError, whose message mentions neither marker key, so the
terminal error does not name the missing marker. -/
theorem c4_marker_error_counterexample :
    script docMissFC = Except.error (Err.valueError "substring not found") ∧
    script docMissGen = Except.error (Err.valueError "substring not found") ∧
    (pyIndex docMissFC kFrameCache).isNone = true ∧
    (pyIndex docMissGen kFrameCache).isSome = true ∧
    (pyIndex docMissGen kGenerates).isNone = true ∧
    (pyIndex ("substring not found").data kFrameCache).isNone = true ∧
    (pyIndex ("substring not found").data kGenerates).isNone = true := by
  decide

/-- C4 amended: a document missing one of the five configured marker keys
makes the run abort with the generic ValueError substring-not-found, which
carries no marker name; no effect is produced. There is no per-marker
minimum offset, every search starting at offset 0. -/
theorem c4_missing_key_amended (text : Chars) (h : topKeyAbsent text = true) :
    script text = Except.error errNotFound :=
  script_error_of_resolve text errNotFound (resolveTop_errNotFound text h)

/-- Witness for the amended C4. -/
theorem c4_missing_key_amended_witness :
    topKeyAbsent docMissGen = true ∧
    script docMissGen = Except.error errNotFound := by
  have h : topKeyAbsent docMissGen = true := by decide
  exact ⟨h, c4_missing_key_amended docMissGen h⟩

/-- C8: the transformation is a pure function of the document text, so two
runs on byte-identical documents produce identical unit outputs and effects. -/
theorem c8_determinism (d1 d2 : Chars) (h : d1 = d2) :
    script d1 = script d2 := by
  rw [h]

/-- Witness for C8 at a concrete document. -/
theorem c8_determinism_witness : script docGood = script docGood :=
  c8_determinism docGood docGood rfl

/-- C10: on every successful run the effect trace is the directory creation,
the six unit writes, and only then the unlink of the original path, which is
last; the unlink carries missing_ok, so in the file-system model it succeeds
as a no-op when the original file is already absent. -/
theorem c10_unlink_last (text : Chars) (h : (script text).isOk = true) :
    ∃ tr, script text = Except.ok tr ∧
      (∃ c1 c2 c3 c4 c5 c6,
        tr = [Effect.mkdir previewDir, Effect.write modPath c1,
              Effect.write typesPath c2, Effect.write cachePath c3,
              Effect.write rendererPath c4, Effect.write layersPath c5,
              Effect.write utilsPath c6, Effect.unlink origPath true]) ∧
      ∀ fs, fs.contains origPath = false →
        applyEffect fs (Effect.unlink origPath true) = some fs := by
  cases hr : resolveTop text with
  | error e =>
    rw [script_error_of_resolve text e hr] at h
    simp [Except.isOk, Except.toBool] at h
  | ok t =>
    cases ht : typesFromLines (pySplitlines (types_block text t)) with
    | error e =>
      rw [script_error_of_types text t e hr ht] at h
      simp [Except.isOk, Except.toBool] at h
    | ok ty =>
      refine ⟨_, script_ok_trace text t ty hr ht,
        ⟨mod_rs, ty, cache_rsOf text t, renderer_rsOf text t,
         layers_rsOf text t, utils_rsOf text t, rfl⟩, ?_⟩
      intro fs hfs
      simp at hfs
      simp [applyEffect, hfs]

/-- Witness for C10 at a fully succeeding document. -/
theorem c10_unlink_last_witness :
    (script docGood).isOk = true ∧
    ∃ tr, script docGood = Except.ok tr ∧
      (∃ c1 c2 c3 c4 c5 c6,
        tr = [Effect.mkdir previewDir, Effect.write modPath c1,
              Effect.write typesPath c2, Effect.write cachePath c3,
              Effect.write rendererPath c4, Effect.write layersPath c5,
              Effect.write utilsPath c6, Effect.unlink origPath true]) ∧
      ∀ fs, fs.contains origPath = false →
        applyEffect fs (Effect.unlink origPath true) = some fs := by
  have h : (script docGood).isOk = true := by decide
  exact ⟨h, c10_unlink_last docGood h⟩

/-- C2 counterexample: a document on which every marker resolves, yet the
concatenation of the five blocks in range order does not reconstruct the
document, the span between the plate marker and the PendingDecode marker
being silently dropped with no remainder block. -/
theorem c2_total_coverage_counterexample :
    (resolveTop docGood).isOk = true ∧
    concatBlocksOf docGood (tOf docGood) ≠ docGood := by
  decide

/-- C2 amended: when the markers resolve and the offsets are ordered within
each pairing, the concatenation of the five blocks equals the document with
the span between plate_start and layers_start removed; full byte-for-byte
reconstruction holds exactly when plate_start equals layers_start, and no
remainder block exists. -/
theorem c2_coverage_amended (text : Chars) (t : TopOffsets)
    (h : resolveTop text = Except.ok t)
    (h1 : t.frame_cache_start ≤ t.frame_cache_impl_end)
    (h2 : t.frame_cache_impl_end ≤ t.plate_start)
    (h3 : t.layers_start ≤ t.utils_start) :
    concatBlocksOf text t =
      text.take t.plate_start ++ text.drop t.layers_start ∧
    (t.plate_start = t.layers_start → concatBlocksOf text t = text) := by
  have hrs := (resolveTop_fields text t h).2.2.1
  have key : concatBlocksOf text t =
      text.take t.plate_start ++ text.drop t.layers_start := by
    unfold concatBlocksOf types_block cache_block renderer_block layers_block
      utils_block pySlice
    rw [hrs]
    simp only [List.append_assoc]
    rw [take_drop_concat_drop text t.layers_start t.utils_start h3]
    rw [← List.append_assoc, ← List.append_assoc]
    rw [take_concat_take text t.frame_cache_start t.frame_cache_impl_end h1]
    rw [take_concat_take text t.frame_cache_impl_end t.plate_start h2]
  refine ⟨key, fun hps => ?_⟩
  rw [key, hps, List.take_append_drop]

/-- Witness for the amended C2. -/
theorem c2_coverage_amended_witness :
    resolveTop docGood = Except.ok (tOf docGood) ∧
    concatBlocksOf docGood (tOf docGood) =
      docGood.take (tOf docGood).plate_start ++
        docGood.drop (tOf docGood).layers_start := by
  have h : resolveTop docGood = Except.ok (tOf docGood) := by decide
  have h1 : (tOf docGood).frame_cache_start ≤
      (tOf docGood).frame_cache_impl_end := by decide
  have h2 : (tOf docGood).frame_cache_impl_end ≤
      (tOf docGood).plate_start := by decide
  have h3 : (tOf docGood).layers_start ≤ (tOf docGood).utils_start := by decide
  exact ⟨h, (c2_coverage_amended docGood (tOf docGood) h h1 h2 h3).1⟩

/-- C3 counterexample: a document whose markers occur out of declared order
resolves completely and the run succeeds with no error of any kind, although
the resolved boundary offsets are not non-decreasing, producing a silently
wrong split. -/
theorem c3_monotonic_counterexample :
    (script docOOO).isOk = true ∧
    resolveTop docOOO = Except.ok (tOf docOOO) ∧
    nondecreasing (boundarySeq (tOf docOOO)) = false := by
  decide

/-- C3 amended: every marker is resolved to the first occurrence of its
search key in the whole document, searching from offset 0 independently of
previously resolved markers; in particular renderer_start always equals
frame_cache_impl_end, and no monotonicity of the offsets is enforced. -/
theorem c3_first_occurrence_amended (text : Chars) (t : TopOffsets)
    (h : resolveTop text = Except.ok t) :
    firstOccurrence text kFrameCache t.frame_cache_start ∧
    firstOccurrence text kGenerates t.frame_cache_impl_end ∧
    t.renderer_start = t.frame_cache_impl_end ∧
    firstOccurrence text kPlate t.plate_start ∧
    firstOccurrence text kPendingDecode t.layers_start ∧
    firstOccurrence text kClampTime t.utils_start := by
  obtain ⟨h1, h2, h3, h4, h5, h6⟩ := resolveTop_fields text t h
  exact ⟨pyIndex_first text kFrameCache _ h1, pyIndex_first text kGenerates _ h2,
    h3, pyIndex_first text kPlate _ h4, pyIndex_first text kPendingDecode _ h5,
    pyIndex_first text kClampTime _ h6⟩

/-- Witness for the amended C3. -/
theorem c3_first_occurrence_amended_witness :
    resolveTop docGood = Except.ok (tOf docGood) ∧
    firstOccurrence docGood kFrameCache (tOf docGood).frame_cache_start ∧
    (tOf docGood).renderer_start = (tOf docGood).frame_cache_impl_end := by
  have h : resolveTop docGood = Except.ok (tOf docGood) := by decide
  have hc := c3_first_occurrence_amended docGood (tOf docGood) h
  exact ⟨h, hc.1, hc.2.2.1⟩

/-- C5 counterexample: on a document whose cache block carries trailing
spaces, the emitted cache unit differs from the composition the claim
states, namely header plus the block trimmed of leading and trailing blank
lines only: the code strips all surrounding whitespace instead. -/
theorem c5_trim_counterexample :
    resolveTop docWs = Except.ok (tOf docWs) ∧
    cache_rsOf docWs (tOf docWs) ≠
      cacheHeader ++ specBlankLineTrim (cache_block docWs (tOf docWs)) ++ ['\n'] := by
  decide

/-- C5 amended: each of the four preamble-headed units equals its header
template followed by the block stripped of all leading and trailing
whitespace and one final newline; each such body ends with exactly one line
terminator when the stripped block is nonempty, and each header ends with
exactly one blank line of separation. -/
theorem c5_composition_amended (text : Chars) (t : TopOffsets)
    (h : resolveTop text = Except.ok t)
    (hc : pyStrip (cache_block text t) ≠ [])
    (hr : pyStrip (renderer_block text t) ≠ [])
    (hl : pyStrip (layers_block text t) ≠ [])
    (hu : pyStrip (utils_block text t) ≠ []) :
    cache_rsOf text t = cacheHeader ++ pyStrip (cache_block text t) ++ ['\n'] ∧
    renderer_rsOf text t =
      rendererHeader ++ pyStrip (renderer_block text t) ++ ['\n'] ∧
    layers_rsOf text t = layersHeader ++ pyStrip (layers_block text t) ++ ['\n'] ∧
    utils_rsOf text t = utilsHeader ++ pyStrip (utils_block text t) ++ ['\n'] ∧
    endsOneNL (cache_rsOf text t) = true ∧
    endsOneNL (renderer_rsOf text t) = true ∧
    endsOneNL (layers_rsOf text t) = true ∧
    endsOneNL (utils_rsOf text t) = true ∧
    endsOneBlank cacheHeader = true ∧
    endsOneBlank rendererHeader = true ∧
    endsOneBlank layersHeader = true ∧
    endsOneBlank utilsHeader = true := by
  refine ⟨rfl, rfl, rfl, rfl, ?_, ?_, ?_, ?_,
    by decide, by decide, by decide, by decide⟩
  · exact endsOneNL_of_strip cacheHeader (cache_block text t) hc
  · exact endsOneNL_of_strip rendererHeader (renderer_block text t) hr
  · exact endsOneNL_of_strip layersHeader (layers_block text t) hl
  · exact endsOneNL_of_strip utilsHeader (utils_block text t) hu

/-- Witness for the amended C5. -/
theorem c5_composition_amended_witness :
    resolveTop docGood = Except.ok (tOf docGood) ∧
    pyStrip (cache_block docGood (tOf docGood)) ≠ [] ∧
    endsOneNL (cache_rsOf docGood (tOf docGood)) = true := by
  have h : resolveTop docGood = Except.ok (tOf docGood) := by decide
  have hc : pyStrip (cache_block docGood (tOf docGood)) ≠ [] := by decide
  have hr : pyStrip (renderer_block docGood (tOf docGood)) ≠ [] := by decide
  have hl : pyStrip (layers_block docGood (tOf docGood)) ≠ [] := by decide
  have hu : pyStrip (utils_block docGood (tOf docGood)) ≠ [] := by decide
  exact ⟨h, hc,
    (c5_composition_amended docGood (tOf docGood) h hc hr hl hu).2.2.2.2.1⟩

/-- C6 counterexample: the units are produced and written in the order mod,
types, cache, renderer, layers, utils, but the fixed aggregator literal
declares renderer before types, so the manifest declaration order does not
mirror the order in which the unit texts are declared and written. -/
theorem c6_manifest_order_counterexample :
    writePathsE (script docGood) = Except.ok
      [modPath, typesPath, cachePath, rendererPath, layersPath, utilsPath] ∧
    ltOpt (pyIndex mod_rs (modDeclKey "renderer"))
      (pyIndex mod_rs (modDeclKey "types")) = true := by
  decide

/-- C6 amended: the aggregator literal contains, for each of the five
sub-units, a mod declaration followed later by its pub use re-export, and
the declaration order and the re-export order agree with each other,
renderer, cache, layers, types, utils. -/
theorem c6_manifest_amended :
    fiveUnits.all declBeforeReexport = true ∧
    chainLtOpt (fiveUnits.map (fun n => pyIndex mod_rs (modDeclKey n))) = true ∧
    chainLtOpt (fiveUnits.map (fun n => pyIndex mod_rs (pubUseKey n))) = true := by
  decide

/-- C7: in the spec-modelled ManifestGenerator, whenever two unit specs
declare the same exported symbol, generation fails with DuplicateReexport
and no manifest text is emitted. -/
theorem c7_duplicate_reexport (l1 l2 l3 : List UnitSpec) (u1 u2 : UnitSpec)
    (s : String) (h1 : s ∈ u1.reexports) (h2 : s ∈ u2.reexports) :
    ∃ d, generate (l1 ++ u1 :: l2 ++ u2 :: l3) =
      Except.error (SpecError.duplicateReexport d) := by
  set L := (((l1 ++ u1 :: l2 ++ u2 :: l3).map (fun u => u.reexports)).flatten)
    with hL
  have hc1 : 0 < u1.reexports.count s := List.count_pos_iff.mpr h1
  have hc2 : 0 < u2.reexports.count s := List.count_pos_iff.mpr h2
  have hcount : 2 ≤ L.count s := by
    rw [hL]
    simp only [List.map_append, List.map_cons, List.flatten_append,
      List.flatten_cons, List.count_append]
    omega
  have hnd : ¬ L.Nodup := by
    intro hnd
    have := List.nodup_iff_count_le_one.mp hnd s
    omega
  have hsome := findDup_isSome_of_not_nodup L hnd
  cases hfd : findDup L with
  | none => rw [hfd] at hsome; cases hsome
  | some d =>
    refine ⟨d, ?_⟩
    unfold generate
    rw [← hL, hfd]

/-- Witness for C7 at two concrete unit specs sharing the symbol S. -/
theorem c7_duplicate_reexport_witness :
    ("S" ∈ (UnitSpec.mk "a" ["S"]).reexports) ∧
    ∃ d, generate [UnitSpec.mk "a" ["S"], UnitSpec.mk "b" ["S"]] =
      Except.error (SpecError.duplicateReexport d) := by
  have hm1 : "S" ∈ (UnitSpec.mk "a" ["S"]).reexports := by simp
  have hm2 : "S" ∈ (UnitSpec.mk "b" ["S"]).reexports := by simp
  have hd := c7_duplicate_reexport [] [] [] (UnitSpec.mk "a" ["S"])
    (UnitSpec.mk "b" ["S"]) "S" hm1 hm2
  exact ⟨hm1, by simpa using hd⟩

/-- C9 counterexample: on a document whose renderer marker occurs before the
const line, the leading import line use foo; occurs only before the const
line, yet the produced renderer unit contains it, so text preceding the
const line is not excluded from every unit body. -/
theorem c9_preconst_counterexample :
    (script docEarly).isOk = true ∧
    optContains (unitOut docEarly rendererPath) kUseFoo = true ∧
    soleEarlyOccurrence docEarly kUseFoo kConst = true := by
  decide

/-- C9 amended: the types unit is computed from the types-block lines alone
starting at the first const or derive match: prepending any lines that
neither start with the const pattern nor, after stripping, with the derive
pattern leaves the types unit text unchanged, so such leading lines,
including use import lines, are excluded from the types unit (while the uses
and rest lists collected from them are never read and rest stays empty). -/
theorem c9_types_prefix_independence (pre rest : List Chars)
    (h : ∀ l ∈ pre, isPre kDerive (pyStrip l) = false ∧ isPre kConst l = false) :
    typesFromLines (pre ++ rest) = typesFromLines rest := by
  induction pre with
  | nil => rfl
  | cons l pre ih =>
    have hl := h l (by simp)
    have hrest : ∀ x ∈ pre,
        isPre kDerive (pyStrip x) = false ∧ isPre kConst x = false :=
      fun x hx => h x (by simp [hx])
    rw [List.cons_append, typesFromLines_cons l (pre ++ rest) hl.1 hl.2]
    exact ih hrest

/-- Witness for the amended C9. -/
theorem c9_types_prefix_independence_witness :
    (∀ l ∈ preLines,
      isPre kDerive (pyStrip l) = false ∧ isPre kConst l = false) ∧
    typesFromLines
        (preLines ++ pySplitlines (types_block docGood (tOf docGood))) =
      typesFromLines (pySplitlines (types_block docGood (tOf docGood))) := by
  have h : ∀ l ∈ preLines,
      isPre kDerive (pyStrip l) = false ∧ isPre kConst l = false := by decide
  exact ⟨h, c9_types_prefix_independence preLines
    (pySplitlines (types_block docGood (tOf docGood))) h⟩

end SplitPreview
